import Mathlib

/-!
Shallow embedding of the authentication / RBAC / throttling middleware of the
hotel-management backend (src/backend/middlewares/auth.js, the RBAC middleware
module, src/backend/middlewares/rateLimiter.js, and the user schema methods of
the models file).  Machine integers are modelled as `Nat`/`Int`; times are
`Nat` milliseconds or seconds as in the source; fallible operations return
`Except`/`Option`; the JavaScript notion of truthiness for optional strings is
made explicit.
-/

namespace HotelAuth

/-- JavaScript truthiness of an optional string value: `undefined`/`null` and
the empty string are falsy, every other string is truthy. -/
def jsTruthy : Option String → Bool
  | none => false
  | some s => s ≠ ""

/-- A role document as loaded by `populate` in auth.js: `name`, `permissions`,
`isActive` (roleSchema in the models file). -/
structure RoleRec where
  name : String
  permissions : List String
  isActive : Bool
deriving DecidableEq, Repr

/-- A user document (userSchema): the fields the middleware reads.
`passwordChangedAt` is milliseconds since epoch, as `Date.getTime()` returns. -/
structure User where
  id : String
  accountStatus : String
  role : Option RoleRec
  passwordChangedAt : Option Nat
deriving DecidableEq, Repr

/-- The decoded JWT payload produced by `signToken` and read by `protect`:
`{ id, role, jti }` plus the standard `iat`/`exp` claims (seconds). -/
structure Payload where
  id : String
  role : String
  jti : Option String
  iat : Nat
  exp : Nat
deriving DecidableEq, Repr

/-- Outcomes of `jwt.verify` as discriminated by `protect` (auth.js lines
82-90): `TokenExpiredError`, `JsonWebTokenError`, or any other error. -/
inductive VerifyErr
  | tokenExpiredError
  | jsonWebTokenError
  | otherError
deriving DecidableEq, Repr

/-- The request fields `extractToken` inspects: the `Authorization` header,
the signed cookie `jwt`, and the plain cookie `jwt`. -/
structure Req where
  authorization : Option String
  signedCookieJwt : Option String
  cookieJwt : Option String
deriving DecidableEq, Repr

/-- The ambient environment of the middleware: the JWT verifier closed over
`process.env.JWT_SECRET`, the Redis client state (`isOpen`, `get` which may
return a value, a miss, or throw), the in-memory fallback blacklist set, the
user collection (`User.findById` with role populated), and the clock. -/
structure Env where
  verify : String → Except VerifyErr Payload
  redisOpen : Bool
  redisGet : String → Except Unit (Option String)
  memoryBlacklist : List String
  findById : String → Option User
  nowMs : Nat

/-- JavaScript `String.prototype.startsWith`, modelled structurally on the
character list of the string. -/
def strStartsWith (s p : String) : Bool :=
  p.data.isPrefixOf s.data

/-- JavaScript `String.prototype.split(' ')` on the character list: splits at
every single space, keeping empty segments, exactly as JS does. -/
def splitOnSpace : List Char → List (List Char)
  | [] => [[]]
  | c :: cs =>
    match splitOnSpace cs with
    | [] => [[]]
    | w :: ws => if c = ' ' then [] :: w :: ws else (c :: w) :: ws

/-- JavaScript `s.split(' ')[1]`: the second space-separated segment of `s`,
or `undefined` when there is none. -/
def jsSplitSecond (s : String) : Option String :=
  ((splitOnSpace s.data).get? 1).map (fun w => String.mk w)

/-- JavaScript `String.prototype.toUpperCase`, modelled as the character-wise
upper-casing of the string (the role names involved are ASCII). -/
def strToUpper (s : String) : String :=
  String.mk (s.data.map Char.toUpper)

/-- `extractToken` (auth.js lines 15-32).  Priority: a `Bearer ` authorization
header yields the second space-separated token; otherwise a truthy signed
cookie `jwt`; otherwise a truthy plain cookie `jwt`; otherwise `null`. -/
def extractToken (req : Req) : Option String :=
  if (req.authorization.map (fun h => strStartsWith h ("Bearer "))).getD false then
    jsSplitSecond (req.authorization.getD "")
  else if jsTruthy req.signedCookieJwt then
    req.signedCookieJwt
  else if jsTruthy req.cookieJwt then
    req.cookieJwt
  else
    none

/-- `isTokenBlacklisted` (auth.js lines 40-50).  When the Redis client is open
it queries `blacklist:<jti>` and reports revoked exactly when the result is
non-null; when the client is closed, or when the query throws (the `catch`
branch), it falls back to membership in the in-memory `tokenBlacklist` set. -/
def isTokenBlacklisted (env : Env) (jti : String) : Bool :=
  if env.redisOpen then
    match env.redisGet ("blacklist:" ++ jti) with
    | .ok r => r.isSome
    | .error _ => env.memoryBlacklist.contains jti
  else
    env.memoryBlacklist.contains jti

/-- `userSchema.methods.changedPasswordAfter` (models file): true when the JWT
`iat` (seconds) is strictly less than `passwordChangedAt` converted to whole
seconds; false when no `passwordChangedAt` is recorded. -/
def changedPasswordAfter (u : User) (jwtTimestamp : Nat) : Bool :=
  match u.passwordChangedAt with
  | some t => jwtTimestamp < t / 1000
  | none => false

/-- The `userSchema.pre` save hook (models file): when the password field was
modified on a non-new document, `passwordChangedAt` is set to
`Date.now() - 1000` (one second before the save, to ensure a token created
just after the change is not considered stale).  Password hashing itself is
external (bcrypt) and not modelled. -/
def presaveSetPasswordChangedAt (u : User) (passwordModified isNew : Bool) (nowMs : Nat) : User :=
  if passwordModified && !isNew then
    { u with passwordChangedAt := some (nowMs - 1000) }
  else
    u

/-- The distinct error outcomes of `protect` (auth.js lines 72-136), one per
rejecting branch, in source order. -/
inductive AuthErr
  | noToken
  | sessionExpired
  | invalidToken
  | verifyFailed
  | revoked
  | userNotFound
  | accountDisabled (status : String)
  | roleDeactivated
  | passwordChanged
deriving DecidableEq, Repr

/-- The success payload of `protect`: the attached `req.user` and whether the
`X-Token-Refresh-Hint` header is set (token age above 75% of its lifetime,
auth.js lines 143-147; the float comparison `age > ttl * 0.75` is the exact
integer comparison `4 * age > 3 * ttl`). -/
structure ProtectOk where
  user : User
  refreshHint : Bool
deriving DecidableEq, Repr

/-- Steps 3-9 of `protect` (auth.js lines 92-149), applied to an
already-decoded payload: blacklist check when a `jti` claim is truthy, then
user existence, account status `ACTIVE`, role active, and password-change
staleness; on success the user is attached and the refresh hint computed. -/
def protectChecks (env : Env) (decoded : Payload) : Except AuthErr ProtectOk :=
  if jsTruthy decoded.jti && isTokenBlacklisted env (decoded.jti.getD "") then
    .error .revoked
  else
    match env.findById decoded.id with
    | none => .error .userNotFound
    | some currentUser =>
      if currentUser.accountStatus ≠ "ACTIVE" then
        .error (.accountDisabled currentUser.accountStatus)
      else if !((currentUser.role.map (fun r => r.isActive)).getD false) then
        .error .roleDeactivated
      else if changedPasswordAfter currentUser decoded.iat then
        .error .passwordChanged
      else
        .ok { user := currentUser,
              refreshHint :=
                4 * ((env.nowMs / 1000 : Int) - decoded.iat) >
                  3 * ((decoded.exp : Int) - decoded.iat) }

/-- `protect` (auth.js lines 67-153): extract the token (a falsy token is a
`noToken` failure), verify signature/expiry discriminating the three verify
error kinds, then run the remaining checks. -/
def protect (env : Env) (req : Req) : Except AuthErr ProtectOk :=
  let token := extractToken req
  if !jsTruthy token then
    .error .noToken
  else
    match env.verify (token.getD "") with
    | .error .tokenExpiredError => .error .sessionExpired
    | .error .jsonWebTokenError => .error .invalidToken
    | .error .otherError => .error .verifyFailed
    | .ok decoded => protectChecks env decoded

/-- `optionalAuth` (auth.js lines 159-181): a falsy token yields an anonymous
request; a verify failure yields anonymous; otherwise the user is looked up
and attached exactly when it exists with `accountStatus === 'ACTIVE'`.  It
never produces an error. -/
def optionalAuth (env : Env) (req : Req) : Option User :=
  let token := extractToken req
  if !jsTruthy token then
    none
  else
    match env.verify (token.getD "") with
    | .error _ => none
    | .ok decoded =>
      match env.findById decoded.id with
      | some user => if user.accountStatus = "ACTIVE" then some user else none
      | none => none

/-- `signToken` (auth.js lines 187-205): the signed payload `{ id, role, jti }`
with `iat` the signing time and `exp` the signing time plus the configured
lifetime.  The random `jti` and the opaque string encoding are parameters of
the model; `Env.verify` plays the decoder's role. -/
def signToken (userId roleName jti : String) (nowS expiresInS : Nat) : Payload :=
  { id := userId, role := roleName, jti := some jti, iat := nowS, exp := nowS + expiresInS }

/-- `ROLE_HIERARCHY` (RBAC middleware lines 129-134): authority levels by role
name; an unknown name has no level (`undefined`). -/
def ROLE_HIERARCHY : String → Option Nat := fun n =>
  if n = "HOUSEKEEPING" then some 0
  else if n = "RECEPTIONIST" then some 1
  else if n = "MANAGER" then some 2
  else if n = "ADMIN" then some 3
  else none

/-- `DEFAULT_ROLE_PERMISSIONS` (RBAC middleware lines 141-178): the static
table of default permission strings per role name; an unknown name maps to
`undefined`. -/
def DEFAULT_ROLE_PERMISSIONS : String → Option (List String) := fun n =>
  if n = "ADMIN" then
    some ["manage_users", "manage_roles", "manage_rooms", "manage_reservations",
          "manage_payments", "manage_housekeeping", "view_reports", "manage_guests",
          "check_in", "check_out", "assign_tasks", "view_audit_logs"]
  else if n = "MANAGER" then
    some ["manage_rooms", "manage_reservations", "manage_payments",
          "manage_housekeeping", "view_reports", "manage_guests",
          "check_in", "check_out", "assign_tasks"]
  else if n = "RECEPTIONIST" then
    some ["manage_reservations", "manage_guests", "check_in", "check_out",
          "view_reports"]
  else if n = "HOUSEKEEPING" then
    some ["manage_housekeeping", "assign_tasks"]
  else
    none

/-- The permission set computed inside `requirePermission` (RBAC middleware
lines 240-245): the union (as a merged set) of the default permissions for the
user's role name (`|| []` when the name is unknown or missing) with the
permissions stored on the role record (`|| []` when the role is missing).
Membership in the resulting list is the `Set.has` of the source. -/
def resolvedPermissions (u : User) : List String :=
  let userRoleName := u.role.map (fun r => r.name)
  let dbPermissions := (u.role.map (fun r => r.permissions)).getD []
  let defaultPermissions := (userRoleName.bind DEFAULT_ROLE_PERMISSIONS).getD []
  defaultPermissions ++ dbPermissions

/-- Outcomes of the permission-gate middleware `requirePermission`. -/
inductive PermResult
  | authRequired
  | granted
  | denied (missing : List String)
deriving DecidableEq, Repr

/-- `requirePermission` (RBAC middleware lines 234-286): 401 without a user;
otherwise grants exactly when every required permission is in the resolved
set, and reports the missing ones otherwise. -/
def requirePermission (user? : Option User) (requiredPermissions : List String) : PermResult :=
  match user? with
  | none => .authRequired
  | some u =>
    let allPermissions := resolvedPermissions u
    if requiredPermissions.all (fun p => allPermissions.contains p) then
      .granted
    else
      .denied (requiredPermissions.filter (fun p => !allPermissions.contains p))

/-- JavaScript `a || b` on two optional strings: the first truthy value, or
`none` when both are falsy (`undefined`/`null`/empty). -/
def jsOrStr (a b : Option String) : Option String :=
  if jsTruthy a then a else if jsTruthy b then b else none

/-- JavaScript `a >= b` where `b` may be `undefined`: a comparison against
`undefined` is a NaN comparison and yields `false`. -/
def jsGeOpt (a : Nat) : Option Nat → Bool
  | some b => a ≥ b
  | none => false

/-- Outcomes of `preventPrivilegeEscalation`. -/
inductive EscResult
  | authRequired
  | invalidRole
  | escalationDenied
  | proceed
deriving DecidableEq, Repr

/-- `preventPrivilegeEscalation` (RBAC middleware lines 388-414): 401 without
a user; without a truthy `roleName`/`role` body field it admits immediately;
an unknown requested role (after uppercasing) is a 400; otherwise it denies
(403) exactly when the requested level is `>=` the actor's level, where an
actor whose own role name has no level makes the JS `>=` comparison false. -/
def preventPrivilegeEscalation (user? : Option User) (bodyRoleName bodyRole : Option String) : EscResult :=
  match user? with
  | none => .authRequired
  | some u =>
    match jsOrStr bodyRoleName bodyRole with
    | none => .proceed
    | some requestedRoleName =>
      let userLevel := (u.role.map (fun r => r.name)).bind ROLE_HIERARCHY
      match ROLE_HIERARCHY (strToUpper requestedRoleName) with
      | none => .invalidRole
      | some requestedLevel =>
        if jsGeOpt requestedLevel userLevel then .escalationDenied else .proceed

/-- The four role names of the system (roleSchema enum / ROLE_HIERARCHY). -/
inductive Role
  | HOUSEKEEPING
  | RECEPTIONIST
  | MANAGER
  | ADMIN
deriving DecidableEq, Repr

/-- The canonical (uppercase) name of each role. -/
def roleName : Role → String
  | .HOUSEKEEPING => "HOUSEKEEPING"
  | .RECEPTIONIST => "RECEPTIONIST"
  | .MANAGER => "MANAGER"
  | .ADMIN => "ADMIN"

/-- The authority level of each role, as in `ROLE_HIERARCHY`. -/
def roleLevel : Role → Nat
  | .HOUSEKEEPING => 0
  | .RECEPTIONIST => 1
  | .MANAGER => 2
  | .ADMIN => 3

/-- A sample active user holding the given role, for stating properties that
quantify over the actor's role. -/
def mkUser (r : Role) : User :=
  { id := "actor", accountStatus := "ACTIVE",
    role := some { name := roleName r, permissions := [], isActive := true },
    passwordChangedAt := none }

/-- The delay computation of the `express-slow-down` policy objects
(rateLimiter.js): the library applies no delay while the hit count is at or
below `delayAfter`, and otherwise applies the configured `delayMs` function of
the hit count, capped at `maxDelayMs` (library semantics as documented; the
library itself is an external dependency). -/
def slowDownDelay (delayAfter maxDelayMs : Nat) (delayMsFn : Nat → Nat) (hits : Nat) : Nat :=
  if hits ≤ delayAfter then 0 else min (delayMsFn hits) maxDelayMs

/-- `speedLimiter` (rateLimiter.js lines 190-197): threshold 30 hits, 100 ms
per hit, capped at 5000 ms. -/
def speedLimiterDelay (hits : Nat) : Nat :=
  slowDownDelay 30 5000 (fun h => h * 100) hits

/-- `authSpeedLimiter` (rateLimiter.js lines 203-213): threshold 2 hits,
500 ms per hit, capped at 10000 ms. -/
def authSpeedLimiterDelay (hits : Nat) : Nat :=
  slowDownDelay 2 10000 (fun h => h * 500) hits

/-- Modelled from the spec: the ordered-checks reading of Verify — a list of
(fails?, error) pairs tried in order, the first failing check's error being
the outcome. -/
def firstFailing : List (Bool × AuthErr) → Option AuthErr
  | [] => none
  | (b, e) :: rest => if b then some e else firstFailing rest

/-- Modelled from the spec: the five post-signature checks of Verify in the
order the spec states them — revocation lookup, identity exists, account
status ACTIVE, role active, credential not stale — each paired with its
distinct error kind. -/
def specChecksList (env : Env) (decoded : Payload) : List (Bool × AuthErr) :=
  let user? := env.findById decoded.id
  [ (jsTruthy decoded.jti && isTokenBlacklisted env (decoded.jti.getD ""), .revoked),
    (user?.isNone, .userNotFound),
    ((user?.map (fun u => decide (u.accountStatus ≠ "ACTIVE"))).getD false,
       .accountDisabled ((user?.map (fun u => u.accountStatus)).getD "")),
    (!(((user?.bind (fun u => u.role)).map (fun r => r.isActive)).getD false), .roleDeactivated),
    ((user?.map (fun u => changedPasswordAfter u decoded.iat)).getD false, .passwordChanged) ]

/-- C9: token extraction follows a strict priority — a `Bearer `-prefixed
Authorization header always yields its second space-separated token (winning
over any cookie); otherwise a present non-empty signed cookie `jwt` is used;
otherwise a present non-empty plain cookie `jwt`; otherwise extraction yields
null.  (Presence is JS truthiness: an empty-string value is skipped.) -/
theorem extractToken_priority (req : Req) :
    (∀ h, req.authorization = some h → strStartsWith h ("Bearer ") = true →
      extractToken req = jsSplitSecond h) ∧
    ((req.authorization.map (fun h => strStartsWith h ("Bearer "))).getD false = false →
      jsTruthy req.signedCookieJwt = true →
      extractToken req = req.signedCookieJwt) ∧
    ((req.authorization.map (fun h => strStartsWith h ("Bearer "))).getD false = false →
      jsTruthy req.signedCookieJwt = false → jsTruthy req.cookieJwt = true →
      extractToken req = req.cookieJwt) ∧
    ((req.authorization.map (fun h => strStartsWith h ("Bearer "))).getD false = false →
      jsTruthy req.signedCookieJwt = false → jsTruthy req.cookieJwt = false →
      extractToken req = none) := by
  refine ⟨?_, ?_, ?_, ?_⟩
  · intro h hauth hb
    simp [extractToken, hauth, hb]
  · intro hnb hs
    simp [extractToken, hnb, hs]
  · intro hnb hs hc
    simp [extractToken, hnb, hs, hc]
  · intro hnb hs hc
    simp [extractToken, hnb, hs, hc]

/-- Witness for C9 at concrete requests: header wins, then signed cookie,
then plain cookie, then null. -/
theorem extractToken_priority_witness :
    extractToken { authorization := some ("Bearer abc"), signedCookieJwt := some ("s"),
                   cookieJwt := some ("c") } = jsSplitSecond ("Bearer abc") ∧
    extractToken { authorization := none, signedCookieJwt := some ("s"),
                   cookieJwt := some ("c") } = some ("s") ∧
    extractToken { authorization := none, signedCookieJwt := none,
                   cookieJwt := some ("c") } = some ("c") ∧
    extractToken { authorization := none, signedCookieJwt := none,
                   cookieJwt := none } = none :=
  ⟨(extractToken_priority _).1 ("Bearer abc") rfl (by decide),
   (extractToken_priority _).2.1 (by decide) (by decide),
   (extractToken_priority _).2.2.1 (by decide) (by decide) (by decide),
   (extractToken_priority _).2.2.2 (by decide) (by decide) (by decide)⟩

/-- C10: with neither a `roleName` nor a `role` body field,
`preventPrivilegeEscalation` admits every authenticated request without
performing any authority comparison. -/
theorem preventPrivilegeEscalation_noRoleField (u : User) :
    preventPrivilegeEscalation (some u) none none = .proceed := by
  simp [preventPrivilegeEscalation, jsOrStr, jsTruthy]

/-- C6: for every actor role and requested role of the hierarchy, escalation
is denied exactly when the requested level is at least the actor's level and
admitted exactly when it is strictly less; in particular MANAGER→MANAGER and
ADMIN→ADMIN are denied while ADMIN→MANAGER is allowed. -/
theorem preventPrivilegeEscalation_strict (a r : Role) :
    (preventPrivilegeEscalation (some (mkUser a)) (some (roleName r)) none =
        .escalationDenied ↔ roleLevel a ≤ roleLevel r) ∧
    (preventPrivilegeEscalation (some (mkUser a)) (some (roleName r)) none =
        .proceed ↔ roleLevel r < roleLevel a) ∧
    preventPrivilegeEscalation (some (mkUser .MANAGER)) (some (roleName .MANAGER)) none =
      .escalationDenied ∧
    preventPrivilegeEscalation (some (mkUser .ADMIN)) (some (roleName .ADMIN)) none =
      .escalationDenied ∧
    preventPrivilegeEscalation (some (mkUser .ADMIN)) (some (roleName .MANAGER)) none =
      .proceed := by
  cases a <;> cases r <;> decide

/-- C7: for a user whose role record is present, the resolved permission set
is exactly the union of the static defaults for the role's name with the
permissions stored on the record; every default permission is in the resolved
set whatever the stored list holds; and `requirePermission` grants exactly
when every required permission lies in that union. -/
theorem resolvedPermissions_union (u : User) (rec : RoleRec) (hrole : u.role = some rec)
    (p : String) (required : List String) :
    (p ∈ resolvedPermissions u ↔
      p ∈ (DEFAULT_ROLE_PERMISSIONS rec.name).getD [] ∨ p ∈ rec.permissions) ∧
    (p ∈ (DEFAULT_ROLE_PERMISSIONS rec.name).getD [] → p ∈ resolvedPermissions u) ∧
    (requirePermission (some u) required = .granted ↔
      ∀ q ∈ required, q ∈ resolvedPermissions u) := by
  refine ⟨?_, ?_, ?_⟩
  · simp [resolvedPermissions, hrole]
  · intro hp
    simp [resolvedPermissions, hrole]
    exact Or.inl hp
  · have hiff : (required.all (fun q => (resolvedPermissions u).contains q) = true) ↔
        ∀ q ∈ required, q ∈ resolvedPermissions u := by
      simp [List.all_eq_true, List.contains, List.elem_iff]
    simp only [requirePermission]
    split
    · rename_i hall
      exact iff_of_true rfl (hiff.mp hall)
    · rename_i hall
      rw [Bool.not_eq_true] at hall
      refine iff_of_false (by simp) (fun h => ?_)
      rw [hiff.mpr h] at hall
      cases hall

/-- Witness for C7 at a concrete user: the HOUSEKEEPING default permission
`assign_tasks` remains resolved even though the stored list omits it. -/
theorem resolvedPermissions_union_witness :
    ({ id := "u", accountStatus := "ACTIVE",
       role := some { name := "HOUSEKEEPING", permissions := ["extra"], isActive := true },
       passwordChangedAt := none } : User).role =
      some { name := "HOUSEKEEPING", permissions := ["extra"], isActive := true } ∧
    ("assign_tasks" ∈
      (DEFAULT_ROLE_PERMISSIONS ("HOUSEKEEPING")).getD []) ∧
    ("assign_tasks" ∈ resolvedPermissions
      { id := "u", accountStatus := "ACTIVE",
        role := some { name := "HOUSEKEEPING", permissions := ["extra"], isActive := true },
        passwordChangedAt := none }) :=
  ⟨rfl, by decide,
   (resolvedPermissions_union _ _ rfl ("assign_tasks") []).2.1 (by decide)⟩

/-- C8: for both progressive-delay policies, the delay is zero at or below
the configured threshold (30 hits for the general limiter, 2 for the
authentication one), monotonically non-decreasing in the hit count, and never
exceeds the configured cap (5000 ms, respectively 10000 ms). -/
theorem slowDown_delay_props (h1 h2 hits : Nat) :
    (hits ≤ 30 → speedLimiterDelay hits = 0) ∧
    (h1 ≤ h2 → speedLimiterDelay h1 ≤ speedLimiterDelay h2) ∧
    speedLimiterDelay hits ≤ 5000 ∧
    (hits ≤ 2 → authSpeedLimiterDelay hits = 0) ∧
    (h1 ≤ h2 → authSpeedLimiterDelay h1 ≤ authSpeedLimiterDelay h2) ∧
    authSpeedLimiterDelay hits ≤ 10000 := by
  refine ⟨?_, ?_, ?_, ?_, ?_, ?_⟩ <;>
    simp only [speedLimiterDelay, authSpeedLimiterDelay, slowDownDelay] <;>
    intros <;> split_ifs <;> omega

/-- Witness for C8 at concrete hit counts. -/
theorem slowDown_delay_props_witness :
    speedLimiterDelay 30 = 0 ∧
    speedLimiterDelay 31 ≤ speedLimiterDelay 40 ∧
    speedLimiterDelay 100 ≤ 5000 ∧
    authSpeedLimiterDelay 2 = 0 ∧
    authSpeedLimiterDelay 3 ≤ authSpeedLimiterDelay 9 ∧
    authSpeedLimiterDelay 50 ≤ 10000 :=
  ⟨(slowDown_delay_props 0 0 30).1 (by decide),
   (slowDown_delay_props 31 40 0).2.1 (by decide),
   (slowDown_delay_props 0 0 100).2.2.1,
   (slowDown_delay_props 0 0 2).2.2.2.1 (by decide),
   (slowDown_delay_props 3 9 0).2.2.2.2.1 (by decide),
   (slowDown_delay_props 0 0 50).2.2.2.2.2⟩

/-- A concrete active user with an active MANAGER role, used in concrete
scenarios. -/
def sampleUser : User :=
  { id := "u1", accountStatus := "ACTIVE",
    role := some { name := "MANAGER", permissions := [], isActive := true },
    passwordChangedAt := none }

/-- The payload of a token held by `sampleUser`. -/
def samplePayload : Payload :=
  { id := "u1", role := "MANAGER", jti := some ("jti1"), iat := 1000, exp := 1900 }

/-- A concrete request carrying the raw token `tok` as a Bearer header. -/
def sampleReq : Req :=
  { authorization := some ("Bearer tok"), signedCookieJwt := none, cookieJwt := none }

/-- A concrete environment whose Redis client is open but whose every lookup
throws, with an empty in-memory fallback set; the token `tok` verifies to
`samplePayload` and the user store holds `sampleUser`. -/
def envStoreDown : Env :=
  { verify := fun t => if t = "tok" then .ok samplePayload else .error .jsonWebTokenError,
    redisOpen := true,
    redisGet := fun _ => .error (),
    memoryBlacklist := [],
    findById := fun i => if i = "u1" then some sampleUser else none,
    nowMs := 1000000 }

/-- C1 counterexample: with the distributed store open but erroring on the
lookup (and nothing in the local fallback set), `isTokenBlacklisted` reports
the unverifiable identifier as not-revoked, and `protect` admits the
credential — the lookup failure is not treated as a verification failure. -/
theorem isTokenBlacklisted_failOpen_cex :
    envStoreDown.redisOpen = true ∧
    envStoreDown.redisGet ("blacklist:" ++ "jti1") = .error () ∧
    isTokenBlacklisted envStoreDown ("jti1") = false ∧
    protect envStoreDown sampleReq = .ok { user := sampleUser, refreshHint := false } :=
  ⟨rfl, rfl, by decide, rfl⟩

/-- C1 amended: when the Redis client is open and the store lookup throws,
`isTokenBlacklisted` falls back to membership in the in-memory set — so a
credential revoked only in the unreachable distributed store is reported
not-revoked (fail open), rather than the lookup failure being treated as a
verification failure. -/
theorem isTokenBlacklisted_storeError_fallback (env : Env) (jti : String)
    (hopen : env.redisOpen = true)
    (herr : env.redisGet ("blacklist:" ++ jti) = .error ()) :
    isTokenBlacklisted env jti = env.memoryBlacklist.contains jti := by
  simp [isTokenBlacklisted, hopen, herr]

/-- Witness for the amended C1 at the concrete store-down environment. -/
theorem isTokenBlacklisted_storeError_fallback_witness :
    envStoreDown.redisOpen = true ∧
    envStoreDown.redisGet ("blacklist:" ++ "jti1") = .error () ∧
    isTokenBlacklisted envStoreDown ("jti1") =
      envStoreDown.memoryBlacklist.contains ("jti1") :=
  ⟨rfl, rfl, isTokenBlacklisted_storeError_fallback envStoreDown ("jti1") rfl rfl⟩

/-- A concrete user whose role has been deactivated. -/
def inactiveRoleUser : User :=
  { id := "u2", accountStatus := "ACTIVE",
    role := some { name := "MANAGER", permissions := [], isActive := false },
    passwordChangedAt := none }

/-- An environment in which `tok` verifies and resolves to a user whose role
is deactivated; the revocation store is closed and empty. -/
def envInactiveRole : Env :=
  { verify := fun t =>
      if t = "tok" then
        .ok { id := "u2", role := "MANAGER", jti := some ("jti2"), iat := 0, exp := 900 }
      else .error .jsonWebTokenError,
    redisOpen := false,
    redisGet := fun _ => .ok none,
    memoryBlacklist := [],
    findById := fun i => if i = "u2" then some inactiveRoleUser else none,
    nowMs := 0 }

/-- C2 counterexample: on the same request state, `protect` rejects with the
role-deactivated error while `optionalAuth` attaches a non-null user — the two
are not related by the claimed failure-to-anonymous equivalence, because
`optionalAuth` skips the revocation, role-active, and staleness checks. -/
theorem optionalAuth_not_equiv_protect_cex :
    optionalAuth envInactiveRole sampleReq = some inactiveRoleUser ∧
    protect envInactiveRole sampleReq = .error .roleDeactivated :=
  ⟨by decide, rfl⟩

/-- C2 amended: `optionalAuth` never rejects, and it attaches a non-null user
exactly when the extracted token is truthy, verifies, and resolves to an
existing identity with `ACTIVE` account status — it performs none of the
revocation, role-active, or credential-staleness checks of `protect`. -/
theorem optionalAuth_characterization (env : Env) (req : Req) (u : User) :
    optionalAuth env req = some u ↔
      ∃ t decoded, extractToken req = some t ∧ t ≠ "" ∧
        env.verify t = .ok decoded ∧ env.findById decoded.id = some u ∧
        u.accountStatus = "ACTIVE" := by
  unfold optionalAuth
  cases hx : extractToken req with
  | none => simp [jsTruthy]
  | some t =>
    by_cases ht : t = ""
    · subst ht
      simp [jsTruthy]
    · simp only [jsTruthy, ht, decide_not, Option.getD_some]
      cases hv : env.verify t with
      | error e => simp [ht, hv]
      | ok decoded =>
        cases hf : env.findById decoded.id with
        | none => simp [ht, hv, hf]
        | some user =>
          by_cases hstat : user.accountStatus = "ACTIVE"
          · simp only [ht, hv, hf, hstat]
            simp [eq_comm]
            constructor
            · rintro rfl
              exact ⟨ht, decoded, hv.symm, hf.symm, hstat.symm⟩
            · rintro ⟨-, x, hvx, hfx, hs⟩
              rw [hv] at hvx
              cases hvx
              rw [hf] at hfx
              cases hfx
              rfl
          · simp only [ht, hv, hf, hstat]
            simp
            intro _ x hvx hfx
            rw [hv] at hvx
            cases hvx
            rw [hf] at hfx
            cases hfx
            exact hstat

/-- C3: for an already-decoded credential, the outcome of the remaining
`protect` checks is exactly the distinct error of the first failing check in
the spec's order — revocation, identity exists, account ACTIVE, role active,
not stale — and those five error kinds are pairwise distinct. -/
theorem protectChecks_order (env : Env) (d : Payload) :
    (∀ e, protectChecks env d = .error e ↔ firstFailing (specChecksList env d) = some e) ∧
    (∀ s, List.Pairwise (fun a b => a ≠ b)
      [AuthErr.revoked, AuthErr.userNotFound, AuthErr.accountDisabled s,
       AuthErr.roleDeactivated, AuthErr.passwordChanged]) := by
  constructor
  · intro e
    by_cases hb : (jsTruthy d.jti && isTokenBlacklisted env (d.jti.getD "")) = true
    · simp [protectChecks, specChecksList, firstFailing, hb]
    · rw [Bool.not_eq_true] at hb
      cases hu : env.findById d.id with
      | none => simp [protectChecks, specChecksList, firstFailing, hb, hu]
      | some u =>
        by_cases hs : u.accountStatus = "ACTIVE"
        · by_cases hr : ((u.role.map (fun r => r.isActive)).getD false) = true
          · by_cases hp : changedPasswordAfter u d.iat = true
            · simp [protectChecks, specChecksList, firstFailing, hb, hu, hs, hr, hp]
            · rw [Bool.not_eq_true] at hp
              simp [protectChecks, specChecksList, firstFailing, hb, hu, hs, hr, hp]
          · rw [Bool.not_eq_true] at hr
            simp [protectChecks, specChecksList, firstFailing, hb, hu, hs, hr]
        · simp [protectChecks, specChecksList, firstFailing, hb, hu, hs]
  · intro s
    simp [List.pairwise_cons]

/-- C4: after a password change saved at `nowMs` (which stores
`passwordChangedAt = nowMs - 1000`), a credential is stale exactly when its
`iat` is below the stored change time in whole seconds; credentials issued at
or after the save are unaffected; credentials issued at least a second before
the stored time are invalidated; and a stale credential makes the remaining
`protect` checks fail with the password-changed (`Stale`) error. -/
theorem passwordChange_staleness (u u' : User) (nowMs iat : Nat)
    (_h1000 : 1000 ≤ nowMs)
    (hu' : u' = presaveSetPasswordChangedAt u true false nowMs) :
    (changedPasswordAfter u' iat = true ↔ iat < (nowMs - 1000) / 1000) ∧
    (nowMs ≤ iat * 1000 → changedPasswordAfter u' iat = false) ∧
    ((iat + 1) * 1000 ≤ nowMs - 1000 → changedPasswordAfter u' iat = true) ∧
    (∀ env d, env.findById d.id = some u' → d.iat = iat →
      (jsTruthy d.jti && isTokenBlacklisted env (d.jti.getD "")) = false →
      u'.accountStatus = "ACTIVE" →
      (u'.role.map (fun r => r.isActive)).getD false = true →
      iat < (nowMs - 1000) / 1000 →
      protectChecks env d = .error .passwordChanged) := by
  have hch : ∀ j : Nat,
      changedPasswordAfter (presaveSetPasswordChangedAt u true false nowMs) j
        = decide (j < (nowMs - 1000) / 1000) := by
    intro j
    simp [presaveSetPasswordChangedAt, changedPasswordAfter]
  subst hu'
  refine ⟨?_, ?_, ?_, ?_⟩
  · rw [hch]
    simp
  · intro hle
    rw [hch]
    have hd1 : (nowMs - 1000) / 1000 ≤ nowMs / 1000 :=
      Nat.div_le_div_right (Nat.sub_le _ _)
    have hd2 : nowMs / 1000 ≤ (iat * 1000) / 1000 := Nat.div_le_div_right hle
    have hd3 : (iat * 1000) / 1000 = iat := Nat.mul_div_cancel iat (by omega)
    simp only [decide_eq_false_iff_not]
    omega
  · intro hle
    rw [hch]
    have hd : iat + 1 ≤ (nowMs - 1000) / 1000 :=
      (Nat.le_div_iff_mul_le (by omega)).mpr hle
    simp only [decide_eq_true_eq]
    omega
  · intro env d hf hiat hbl hst hrole hlt
    simp [protectChecks, hbl, hf, hst, hrole, hiat, hch, hlt]

/-- A user about to change the password, with an active role. -/
def staleUserBase : User :=
  { id := "u3", accountStatus := "ACTIVE",
    role := some { name := "MANAGER", permissions := [], isActive := true },
    passwordChangedAt := none }

/-- `staleUserBase` after a password change saved at 10000 ms. -/
def staleUser : User := presaveSetPasswordChangedAt staleUserBase true false 10000

/-- An environment holding `staleUser`, with the revocation store closed and
empty. -/
def envStale : Env :=
  { verify := fun _ => .error .otherError,
    redisOpen := false,
    redisGet := fun _ => .ok none,
    memoryBlacklist := [],
    findById := fun i => if i = "u3" then some staleUser else none,
    nowMs := 10000 }

/-- A credential of `staleUser` issued at second 5, before the change. -/
def stalePayload : Payload :=
  { id := "u3", role := "MANAGER", jti := none, iat := 5, exp := 905 }

/-- Witness for C4 at concrete times: the change saved at 10000 ms stores
9000 ms, so a credential with `iat = 5` (< 9) is stale and `protect`'s checks
reject it with the password-changed error. -/
theorem passwordChange_staleness_witness :
    1000 ≤ 10000 ∧
    changedPasswordAfter (presaveSetPasswordChangedAt staleUserBase true false 10000) 5 = true ∧
    protectChecks envStale stalePayload = .error .passwordChanged :=
  ⟨by decide,
   (passwordChange_staleness staleUserBase staleUser 10000 5 (by decide) rfl).1.mpr (by decide),
   (passwordChange_staleness staleUserBase staleUser 10000 5 (by decide) rfl).2.2.2
     envStale stalePayload rfl rfl (by decide) (by decide) (by decide) (by decide)⟩

/-- C5: a credential produced by `signToken` for `(userId, role)` — once the
raw token extracts, verifies back to the signed payload, its fresh `jti` is
not blacklisted, and the identity is unchanged (same id and role, ACTIVE,
role active, password unchanged since issuance) — is accepted by `protect`,
which attaches the same subject id and role that were issued. -/
theorem protect_of_signToken (env : Env) (req : Req) (tok userId rName jti : String)
    (now ttl : Nat) (u : User) (rec : RoleRec)
    (hx : extractToken req = some tok) (ht : tok ≠ "")
    (hv : env.verify tok = .ok (signToken userId rName jti now ttl))
    (hbl : isTokenBlacklisted env jti = false)
    (hf : env.findById userId = some u) (hid : u.id = userId)
    (hrole : u.role = some rec) (hrn : rec.name = rName) (hract : rec.isActive = true)
    (hst : u.accountStatus = "ACTIVE")
    (hpw : changedPasswordAfter u now = false) :
    (protect env req).map (fun out => out.user) = .ok u ∧ u.id = userId ∧
      u.role.map (fun r => r.name) = some rName := by
  have htr : jsTruthy (some tok) = true := by simp [jsTruthy, ht]
  refine ⟨?_, hid, by simp [hrole, hrn]⟩
  simp only [protect, hx, htr, Bool.not_true, Bool.false_eq_true, if_false,
    Option.getD_some, hv]
  simp [protectChecks, signToken, Except.map, hbl, hf, hst, hrole, hract, hpw]

/-- The identity for the C5 witness. -/
def rtUser : User :=
  { id := "u5", accountStatus := "ACTIVE",
    role := some { name := "RECEPTIONIST", permissions := [], isActive := true },
    passwordChangedAt := none }

/-- An environment in which `tok5` verifies to the token signed for
`(u5, RECEPTIONIST)` and the user store holds the unchanged `rtUser`. -/
def envRT : Env :=
  { verify := fun t =>
      if t = "tok5" then .ok (signToken ("u5") ("RECEPTIONIST") ("j5") 100 900)
      else .error .jsonWebTokenError,
    redisOpen := false,
    redisGet := fun _ => .ok none,
    memoryBlacklist := [],
    findById := fun i => if i = "u5" then some rtUser else none,
    nowMs := 100000 }

/-- The C5 witness request carrying the signed token. -/
def reqRT : Req :=
  { authorization := some ("Bearer tok5"), signedCookieJwt := none, cookieJwt := none }

/-- Witness for C5 at a concrete issuance: verifying the issued credential
succeeds and yields the issued subject and role. -/
theorem protect_of_signToken_witness :
    extractToken reqRT = some ("tok5") ∧
    envRT.verify ("tok5") = .ok (signToken ("u5") ("RECEPTIONIST") ("j5") 100 900) ∧
    isTokenBlacklisted envRT ("j5") = false ∧
    (protect envRT reqRT).map (fun out => out.user) = .ok rtUser ∧ rtUser.id = "u5" ∧
      rtUser.role.map (fun r => r.name) = some ("RECEPTIONIST") :=
  ⟨by decide, rfl, by decide,
   protect_of_signToken envRT reqRT ("tok5") ("u5") ("RECEPTIONIST") ("j5") 100 900 rtUser
     { name := "RECEPTIONIST", permissions := [], isActive := true }
     (by decide) (by decide) rfl (by decide) rfl rfl rfl rfl rfl (by decide) (by decide)⟩

end HotelAuth
